import Mathlib

/-!
Verification development for the percept-eye-proxy repository: a shallow
embedding of the request-admission and usage-accounting pipeline (quota
middleware, token estimator, cost calculator, usage extractor, usage
recorder, and the authentication gate), together with theorems settling
the specification claims about those components.

JavaScript numeric arithmetic is modelled exactly: ordinary values are
exact rationals, and the special values produced by division (NaN and
the two infinities) are explicit constructors, so that expressions such
as 0/0 and x/0 evaluate the way the source language evaluates them.
-/

/-- A JavaScript number: an exact rational, one of the two infinities,
or NaN.  Floating-point rounding of in-range values is abstracted to
exact rational arithmetic; the special values are modelled exactly. -/
inductive JsNum where
  | num (q : ℚ)
  | posInf
  | negInf
  | nan
deriving DecidableEq, Repr

/-- JavaScript division, including the division-by-zero behaviour:
`0/0 = NaN` and `a/0 = ±Infinity` for `a ≠ 0`. -/
def jsDiv : JsNum → JsNum → JsNum
  | .nan, _ => .nan
  | _, .nan => .nan
  | .num a, .num b =>
      if b = 0 then
        (if a = 0 then .nan else if 0 < a then .posInf else .negInf)
      else .num (a / b)
  | .num _, .posInf => .num 0
  | .num _, .negInf => .num 0
  | .posInf, .num b => if b < 0 then .negInf else .posInf
  | .negInf, .num b => if b < 0 then .posInf else .negInf
  | .posInf, .posInf => .nan
  | .posInf, .negInf => .nan
  | .negInf, .posInf => .nan
  | .negInf, .negInf => .nan

/-- JavaScript addition on numbers, propagating NaN and infinities. -/
def jsAdd : JsNum → JsNum → JsNum
  | .nan, _ => .nan
  | _, .nan => .nan
  | .num a, .num b => .num (a + b)
  | .posInf, .posInf => .posInf
  | .negInf, .negInf => .negInf
  | .posInf, .negInf => .nan
  | .negInf, .posInf => .nan
  | .posInf, .num _ => .posInf
  | .num _, .posInf => .posInf
  | .negInf, .num _ => .negInf
  | .num _, .negInf => .negInf

/-- A JavaScript number is an ordinary finite value. -/
def JsNum.isFinite : JsNum → Bool
  | .num _ => true
  | _ => false

/-- A JavaScript number is a non-negative finite value. -/
def JsNum.isNonneg : JsNum → Bool
  | .num q => decide (0 ≤ q)
  | _ => false

/-- `parseFloat(x.toFixed(6))` from the source: round a finite value to
six decimal places; NaN and the infinities pass through. -/
def jsToFixed6 : JsNum → JsNum
  | .num q => .num ((round (q * 1000000) : ℤ) / 1000000)
  | x => x

/-- One row of the static pricing table (`config.pricing`): tokens per
dollar on the input and output side. -/
structure PricingEntry where
  inputTokensPerDollar : ℚ
  outputTokensPerDollar : ℚ
deriving DecidableEq, Repr

namespace config

/-- The legacy default row `config.pricing['gemini-pro']`. -/
def geminiProPricing : PricingEntry :=
  ⟨1000000 / 0.50, 1000000 / 1.50⟩

/-- The static pricing table from `src/config/config.js`, keyed by exact
model id.  Note the `gemini-embedding-001` row, whose output rate is 0. -/
def pricing : String → Option PricingEntry
  | "gemini-pro" => some geminiProPricing
  | "gemini-pro-vision" => some ⟨1000000 / 0.50, 1000000 / 1.50⟩
  | "gemini-1.5-pro" => some ⟨1000000 / 3.50, 1000000 / 10.50⟩
  | "gemini-1.5-pro-latest" => some ⟨1000000 / 3.50, 1000000 / 10.50⟩
  | "gemini-1.5-flash" => some ⟨1000000 / 0.075, 1000000 / 0.30⟩
  | "gemini-1.5-flash-latest" => some ⟨1000000 / 0.075, 1000000 / 0.30⟩
  | "gemini-1.5-flash-8b" => some ⟨1000000 / 0.0375, 1000000 / 0.15⟩
  | "gemini-1.5-flash-8b-latest" => some ⟨1000000 / 0.0375, 1000000 / 0.15⟩
  | "gemini-embedding-001" => some ⟨1000000 / 0.15, 0⟩
  | "gemini-2.0-flash-exp" => some ⟨1000000 / 0.075, 1000000 / 0.30⟩
  | "gemini-2.5-pro" => some ⟨1000000 / 3.50, 1000000 / 10.50⟩
  | "gemini-2.5-pro-latest" => some ⟨1000000 / 3.50, 1000000 / 10.50⟩
  | _ => none

/-- `config.rateLimit.windowMs` — one hour in milliseconds. -/
def rateLimitWindowMs : ℕ := 60 * 60 * 1000

end config

namespace GeminiService

/-- `GeminiService.calculateCost` from the source: look the model up in
the pricing table, falling back to the `gemini-pro` row, and evaluate
`inputTokens / inputTokensPerDollar + outputTokens / outputTokensPerDollar`
with JavaScript arithmetic. -/
def calculateCost (inputTokens outputTokens : ℕ) (modelName : String) : JsNum :=
  let pricing := (config.pricing modelName).getD config.geminiProPricing
  jsAdd (jsDiv (.num inputTokens) (.num pricing.inputTokensPerDollar))
        (jsDiv (.num outputTokens) (.num pricing.outputTokensPerDollar))

end GeminiService

/-- The cost contract stated in the specification's words: the cost is
`inputTokens / pricing[modelId].inputTokensPerDollar +
outputTokens / pricing[modelId].outputTokensPerDollar`, where a model id
absent from the pricing table is replaced by the designated default
entry (the legacy gemini-pro rates). -/
def costSpec (inputTokens outputTokens : ℕ) (modelId : String) : JsNum :=
  let entry :=
    match config.pricing modelId with
    | some e => e
    | none => config.geminiProPricing
  jsAdd (jsDiv (.num inputTokens) (.num entry.inputTokensPerDollar))
        (jsDiv (.num outputTokens) (.num entry.outputTokensPerDollar))

/-! ## Token estimator (`estimateTokenUsage`, src middleware/rateLimiter.js)

The request body shapes below mirror what the middleware inspects:
`body.contents` is an optional list of contents, each with an optional
list of parts; a part optionally holds a text string and optionally an
inline-data blob.  JavaScript truthiness of `part.text` is modelled
explicitly: the empty string is falsy. -/

/-- A content part of the request payload: optional text, and whether an
`inlineData` blob is present. -/
structure ContentPart where
  text : Option String
  inlineData : Bool
deriving DecidableEq, Repr

/-- One element of `body.contents`, holding an optional parts array. -/
structure Content where
  parts : Option (List ContentPart)
deriving DecidableEq, Repr

/-- The request body fields the estimator looks at. -/
structure ReqBody where
  contents : Option (List Content)
  prompt : Option String
deriving DecidableEq, Repr

/-- The `req.estimatedTokens` record attached by the middleware. -/
structure EstimatedTokens where
  input : ℕ
  total : ℕ
deriving DecidableEq, Repr

/-- Tokens contributed by an optional text field under JavaScript
truthiness: a missing or empty text contributes nothing, a non-empty
text of length `L` contributes `ceil(L / 4)` (computed as `(L+3)/4`). -/
def textTokens : Option String → ℕ
  | none => 0
  | some s => if s = "" then 0 else (s.length + 3) / 4

/-- Tokens contributed by one part: its text estimate plus a flat 1000
when an inline-data blob is present. -/
def partTokens (p : ContentPart) : ℕ :=
  textTokens p.text + (if p.inlineData then 1000 else 0)

/-- Tokens contributed by one content: the sum over its parts, when the
parts array is present. -/
def contentTokens (c : Content) : ℕ :=
  match c.parts with
  | none => 0
  | some ps => (ps.map partTokens).sum

/-- The `estimateTokenUsage` middleware from the source: walk
`body.contents` (or fall back to `body.prompt`), add the 100-token
overhead once, and report a total of twice the input estimate. -/
def estimateTokenUsage (body : ReqBody) : EstimatedTokens :=
  let base :=
    match body.contents with
    | some cs => (cs.map contentTokens).sum
    | none =>
        match body.prompt with
        | some p => if p = "" then 0 else (p.length + 3) / 4
        | none => 0
  let estimatedInputTokens := base + 100
  ⟨estimatedInputTokens, estimatedInputTokens * 2⟩

/-! ## Usage extractor (`GeminiService.extractTokenUsage`, src services/gemini.js) -/

/-- The provider's `usageMetadata` block; each count may be absent
(the source applies `|| 0` to each field). -/
structure UsageMetadata where
  promptTokenCount : Option ℕ
  candidatesTokenCount : Option ℕ
  totalTokenCount : Option ℕ
deriving DecidableEq, Repr

/-- A part of a response candidate's content: optional text. -/
structure RespPart where
  text : Option String
deriving DecidableEq, Repr

/-- A response candidate's content, with an optional parts array. -/
structure RespContent where
  parts : Option (List RespPart)
deriving DecidableEq, Repr

/-- One response candidate. -/
structure Candidate where
  content : Option RespContent
deriving DecidableEq, Repr

/-- The fields of `response.data` the extractor inspects. -/
structure RespData where
  usageMetadata : Option UsageMetadata
  candidates : Option (List Candidate)
deriving DecidableEq, Repr

/-- The argument to the extractor: either a response whose `data` field
is present or absent, or an input whose traversal faults (the case the
source's catch-all handles). -/
inductive GeminiResponse where
  | ok (data : Option RespData)
  | malformed
deriving DecidableEq, Repr

/-- The `TokenUsage` record produced by the extractor. -/
structure TokenUsage where
  promptTokenCount : ℕ
  candidatesTokenCount : ℕ
  totalTokenCount : ℕ
deriving DecidableEq, Repr

/-- Heuristic token count of one candidate: the 1-token-per-4-characters
estimate summed over its textual parts. -/
def candidateTokens (c : Candidate) : ℕ :=
  match c.content with
  | none => 0
  | some ct =>
      match ct.parts with
      | none => 0
      | some ps => (ps.map (fun p => textTokens p.text)).sum

namespace GeminiService

/-- `GeminiService.extractTokenUsage` from the source: prefer the
provider's `usageMetadata` counts (missing fields read as 0); otherwise
estimate output-side tokens from the candidates' text and report a zero
prompt count; any faulting input yields the all-zero usage. -/
def extractTokenUsage : GeminiResponse → TokenUsage
  | .malformed => ⟨0, 0, 0⟩
  | .ok data =>
      match data with
      | none => ⟨0, 0, 0⟩
      | some d =>
          match d.usageMetadata with
          | some um =>
              ⟨um.promptTokenCount.getD 0, um.candidatesTokenCount.getD 0,
                um.totalTokenCount.getD 0⟩
          | none =>
              let outputTokens :=
                match d.candidates with
                | none => 0
                | some cands => (cands.map candidateTokens).sum
              ⟨0, outputTokens, outputTokens⟩

end GeminiService

/-! ## Quota guard and the generateContent route pipeline

`SupabaseService.checkUserLimits` (src services/supabase.js) queries the
limits RPC; the `checkUserLimits` middleware (src middleware/rateLimiter.js)
branches on the snapshot; the route (src routes/gemini.js) chains
middleware, the upstream call, usage extraction, cost calculation and the
fire-and-forget usage write.  External effects (the RPC result, the
upstream HTTP outcome, the usage-store write result) are inputs of the
embedding; the trace records the client response together with whether an
upstream call happened and how many usage-write attempts were made. -/

/-- The per-user quota snapshot returned by the `check_user_limits` RPC. -/
structure QuotaSnapshot where
  within_hourly_limit : Bool
  within_daily_token_limit : Bool
  within_daily_cost_limit : Bool
  requests_last_hour : ℕ
  tokens_today : ℕ
  cost_today : ℚ
deriving DecidableEq, Repr

/-- The default snapshot substituted by `SupabaseService.checkUserLimits`
when the RPC succeeds but returns no rows: every within-limit flag false,
every counter zero. -/
def defaultDeniedLimits : QuotaSnapshot :=
  ⟨false, false, false, 0, 0, 0⟩

/-- `SupabaseService.checkUserLimits` from the source: an RPC error is
rethrown as a failure; a successful call yields its first row, or the
all-false default when the result set is empty. -/
def SupabaseService.checkUserLimits
    (rpc : Except String (List QuotaSnapshot)) : Except String QuotaSnapshot :=
  match rpc with
  | .error _ => .error "Failed to check user limits"
  | .ok data => .ok (data.head?.getD defaultDeniedLimits)

/-- The three fields the extractor reads plus the HTTP status of a
successful upstream response. -/
structure UpstreamResp where
  data : Option RespData
  status : ℕ
deriving DecidableEq, Repr

/-- The structured error body of a non-2xx provider response
(`error.message` / `error.code`, each possibly absent). -/
structure UpstreamErrBody where
  errMessage : Option String
  errCode : Option String
deriving DecidableEq, Repr

/-- The outcome of the axios call to the provider: a 2xx response, a
non-2xx response carrying `error.response`, or a network-level failure. -/
inductive AxiosOutcome where
  | ok (resp : UpstreamResp)
  | httpError (status : ℕ) (body : Option UpstreamErrBody)
  | networkError (msg : String)
deriving DecidableEq, Repr

/-- The normalized error thrown by `GeminiService.generateContent`. -/
structure GeminiError where
  status : ℕ
  message : String
  code : String
deriving DecidableEq, Repr

/-- `response.data` as augmented by the service before it is returned:
the upstream payload with a `usageMetadata` block carrying the rounded
cost, the model id and a timestamp. -/
structure ResponseWithUsage where
  base : Option RespData
  cost : JsNum
  model : String
  timestamp : ℕ
deriving DecidableEq, Repr

/-- The body of the client-visible response on the generateContent
route. -/
inductive RespBody where
  | limitError (error message : String) (counterValue : ℚ) (resetTime : ℕ)
  | success (data : ResponseWithUsage)
  | apiError (code message : String)
deriving DecidableEq, Repr

/-- A client-visible HTTP response: status and body. -/
structure ClientResponse where
  status : ℕ
  body : RespBody
deriving DecidableEq, Repr

/-- The reset timestamp carried by a quota-limit error body, when the
body is one. -/
def RespBody.resetTimeOf : RespBody → Option ℕ
  | .limitError _ _ _ rt => some rt
  | _ => none

/-- The observed counter carried by a quota-limit error body, when the
body is one. -/
def RespBody.counterOf : RespBody → Option ℚ
  | .limitError _ _ c _ => some c
  | _ => none

/-- The result of one middleware stage: either respond immediately or
hand over to the next stage (the quota middleware also attaches the
snapshot to the request on success). -/
inductive MwStep where
  | respond (r : ClientResponse)
  | next (userLimits : Option QuotaSnapshot)
deriving DecidableEq, Repr

/-- The `checkUserLimits` middleware from the source: skip when the
request carries no user; on a limits-store failure log and proceed
(fail-open); otherwise test the hourly request ceiling, then the daily
token ceiling, then the daily cost ceiling, answering 429 with the
observed counter and a computed reset instant at the first violation. -/
def checkUserLimits (user : Option String)
    (svc : Except String QuotaSnapshot) (now : ℕ) : MwStep :=
  match user with
  | none => .next none
  | some _ =>
      match svc with
      | .error _ => .next none
      | .ok limits =>
          if ¬ limits.within_hourly_limit then
            .respond ⟨429, .limitError "Rate limit exceeded"
              "You have exceeded your hourly request limit"
              (limits.requests_last_hour : ℚ) (now + config.rateLimitWindowMs)⟩
          else if ¬ limits.within_daily_token_limit then
            .respond ⟨429, .limitError "Token limit exceeded"
              "You have exceeded your daily token limit"
              (limits.tokens_today : ℚ) (now + 24 * 60 * 60 * 1000)⟩
          else if ¬ limits.within_daily_cost_limit then
            .respond ⟨429, .limitError "Cost limit exceeded"
              "You have exceeded your daily cost limit"
              limits.cost_today (now + 24 * 60 * 60 * 1000)⟩
          else .next (some limits)

/-- What `GeminiService.generateContent` contributes beyond its return
value: how many usage-store write attempts were made and whether a write
failure was logged. -/
structure SvcEffects where
  usageWriteAttempts : ℕ
  usageWriteFailLogged : Bool
deriving DecidableEq, Repr

/-- `GeminiService.generateContent` from the source, with the external
axios outcome and the usage-store write result supplied as inputs.  On a
2xx response it extracts token usage, computes the cost, fires exactly
one usage-write attempt (whose failure is only logged), and returns the
augmented payload; upstream failures are normalized and thrown. -/
def GeminiService.generateContent (modelName : String) (userId : Option String)
    (now : ℕ) (upstream : AxiosOutcome) (storeWrite : Except String Unit) :
    Except GeminiError (ResponseWithUsage × ℕ) × SvcEffects :=
  match upstream with
  | .httpError st body =>
      (.error ⟨st, ((body.bind (·.errMessage)).getD "Gemini API error"),
        ((body.bind (·.errCode)).getD "UNKNOWN_ERROR")⟩, ⟨0, false⟩)
  | .networkError _ =>
      (.error ⟨500, "Failed to connect to Gemini API", "CONNECTION_ERROR"⟩, ⟨0, false⟩)
  | .ok resp =>
      let tokenUsage := GeminiService.extractTokenUsage (.ok resp.data)
      let cost := GeminiService.calculateCost
        tokenUsage.promptTokenCount tokenUsage.candidatesTokenCount modelName
      let effects : SvcEffects :=
        match userId with
        | none => ⟨0, false⟩
        | some _ =>
            match storeWrite with
            | .ok _ => ⟨1, false⟩
            | .error _ => ⟨1, true⟩
      (.ok (⟨resp.data, jsToFixed6 cost, modelName, now⟩, resp.status), effects)

/-- The observable trace of one request through the generateContent
route: the client response, whether the upstream provider was called,
and the usage-write effects. -/
structure RouteTrace where
  response : ClientResponse
  upstreamCalled : Bool
  usageWriteAttempts : ℕ
  usageWriteFailLogged : Bool
deriving DecidableEq, Repr

/-- The POST generateContent route from the source, starting at the
quota middleware (the request is already authenticated and validated):
`checkUserLimits` either responds 429 or hands over; the estimator runs
informationally; the handler calls the service and serializes either the
augmented payload or the normalized error. -/
def generateContentRoute (userId : String)
    (rpc : Except String (List QuotaSnapshot)) (now : ℕ) (body : ReqBody)
    (model : String) (upstream : AxiosOutcome)
    (storeWrite : Except String Unit) : RouteTrace :=
  match checkUserLimits (some userId) (SupabaseService.checkUserLimits rpc) now with
  | .respond r => ⟨r, false, 0, false⟩
  | .next _ =>
      let _estimated := estimateTokenUsage body
      match GeminiService.generateContent model (some userId) now upstream storeWrite with
      | (.ok (data, st), eff) =>
          ⟨⟨st, .success data⟩, true, eff.usageWriteAttempts, eff.usageWriteFailLogged⟩
      | (.error e, eff) =>
          ⟨⟨e.status, .apiError e.code e.message⟩, true,
            eff.usageWriteAttempts, eff.usageWriteFailLogged⟩

/-! ## Auth gate (`SupabaseService.verifyToken`, src services/supabase.js and
`authenticateUser`, src middleware/auth.js)

A single provider verification call can return a user, return an
API-level error, or throw; `verifyToken` tries the primary client and,
when that returns an error, falls back to one admin-client attempt,
catching every exception itself.  The middleware turns the outcome into
a client response.  The number of verification attempts actually made is
tracked alongside the result. -/

/-- The authenticated user record. -/
structure UserRec where
  id : String
  email : String
deriving DecidableEq, Repr

/-- The outcome of one `auth.getUser` call: success (with a possibly
null user), an API-level error, or a thrown exception. -/
inductive VerifyCallResult where
  | ok (user : Option UserRec)
  | err (msg : String)
  | exn (msg : String)
deriving DecidableEq, Repr

/-- The `{user, error}` pair `verifyToken` resolves with. -/
structure VerifyTokenOut where
  user : Option UserRec
  error : Option String
deriving DecidableEq, Repr

/-- `SupabaseService.verifyToken` from the source, returning its result
together with the number of provider verification attempts made: the
primary attempt, plus one admin-client fallback attempt when the primary
returns an API error.  A primary exception is caught by the outer
handler after a single attempt; fallback errors and exceptions are
returned, never rethrown. -/
def SupabaseService.verifyToken
    (primary admin : VerifyCallResult) : VerifyTokenOut × ℕ :=
  match primary with
  | .ok u => (⟨u, none⟩, 1)
  | .exn e => (⟨none, some e⟩, 1)
  | .err _ =>
      match admin with
      | .ok u => (⟨u, none⟩, 2)
      | .err ae => (⟨none, some ae⟩, 2)
      | .exn ae => (⟨none, some ae⟩, 2)

/-- The user profile row consulted by the middleware. -/
structure Profile where
  subscription_tier : String
  is_active : Bool
deriving DecidableEq, Repr

/-- The outcome of the authentication middleware: an immediate response,
or handing the request on with the resolved user and profile attached. -/
inductive AuthResult where
  | respond (status : ℕ) (error message : String)
  | proceed (user : UserRec) (profile : Profile)
deriving DecidableEq, Repr

/-- The middleware's header test `authHeader.startsWith('Bearer ')`,
embedded as a prefix test on the string's character data (the byte-level
primitive the standard library uses does not reduce in proofs; prefix of
the character sequence is the same predicate). -/
def startsWithBearer (h : String) : Bool :=
  "Bearer ".data.isPrefixOf h.data

/-- `authenticateUser` from the source, with the outcomes of the two
possible verification calls and of the profile fetch supplied as inputs,
returning the middleware outcome and the number of token-verification
attempts made.  A missing or non-`Bearer` header answers 401 before any
verification; a verification error or null user answers 401; a throwing
profile fetch reaches the outer catch and answers 500; an inactive
profile answers 403. -/
def authenticateUser (authHeader : Option String)
    (primary admin : VerifyCallResult)
    (profile : Except String Profile) : AuthResult × ℕ :=
  match authHeader with
  | none => (.respond 401 "Authentication required" "Please provide a valid Bearer token", 0)
  | some h =>
      if ¬ startsWithBearer h then
        (.respond 401 "Authentication required" "Please provide a valid Bearer token", 0)
      else
        match SupabaseService.verifyToken primary admin with
        | (vt, n) =>
            match vt.error, vt.user with
            | some _, _ =>
                (.respond 401 "Invalid or expired token" "Please authenticate again", n)
            | none, none =>
                (.respond 401 "Invalid or expired token" "Please authenticate again", n)
            | none, some u =>
                match profile with
                | .error _ =>
                    (.respond 500 "Authentication service error" "Please try again later", n)
                | .ok p =>
                    if ¬ p.is_active then
                      (.respond 403 "Account inactive"
                        "Your account has been deactivated. Please contact support.", n)
                    else (.proceed u p, n)

/-! ## Theorems settling the claims -/

/-- The textual-part heuristic always equals the ceiling of a quarter of
the character length, including for the empty string (which JavaScript
truthiness skips but which contributes 0 either way). -/
theorem textTokens_some (s : String) : textTokens (some s) = (s.length + 3) / 4 := by
  by_cases hs : s = ""
  · subst hs; decide
  · simp [textTokens, hs]

/-- Claim C3: for all non-negative integer token counts and every model
id, the computed cost is `inputTokens / pricing[modelId].inputTokensPerDollar
+ outputTokens / pricing[modelId].outputTokensPerDollar` (with the
source's JavaScript arithmetic), where a model id absent from the
pricing table is replaced by the designated default entry, the legacy
gemini-pro rates, instead of failing. -/
theorem C3_cost_follows_contract (i o : ℕ) (m : String) :
    GeminiService.calculateCost i o m = costSpec i o m ∧
    (config.pricing m = none →
      GeminiService.calculateCost i o m = GeminiService.calculateCost i o "gemini-pro") := by
  constructor
  · cases h : config.pricing m <;>
      simp [GeminiService.calculateCost, costSpec, h]
  · intro h
    simp only [GeminiService.calculateCost, h]
    rfl

/-- Witness for C3 at a concrete unlisted model id. -/
theorem C3_cost_follows_contract_witness :
    GeminiService.calculateCost 8 3 "gpt-4" = GeminiService.calculateCost 8 3 "gemini-pro" :=
  (C3_cost_follows_contract 8 3 "gpt-4").2 (by decide)

/-- Claim C6: a request body holding exactly one textual part of length
`L` and no other parts gets an input estimate of `ceil(L/4) + 100` and a
total estimate of exactly twice the input estimate; in general each
textual part contributes `ceil(length/4)`, each inline/binary part
contributes a flat 1000, the 100-token overhead is added once per
request, and the total is always twice the input estimate. -/
theorem C6_token_estimator (s : String) (cs : List Content) (pr : Option String)
    (p : ContentPart) :
    estimateTokenUsage ⟨some [⟨some [⟨some s, false⟩]⟩], none⟩ =
      ⟨(s.length + 3) / 4 + 100, ((s.length + 3) / 4 + 100) * 2⟩ ∧
    (estimateTokenUsage ⟨some cs, pr⟩).input = (cs.map contentTokens).sum + 100 ∧
    (estimateTokenUsage ⟨some cs, pr⟩).total = (estimateTokenUsage ⟨some cs, pr⟩).input * 2 ∧
    partTokens p = textTokens p.text + (if p.inlineData then 1000 else 0) ∧
    textTokens (some s) = (s.length + 3) / 4 := by
  refine ⟨?_, rfl, rfl, rfl, textTokens_some s⟩
  simp [estimateTokenUsage, contentTokens, partTokens, textTokens_some]

/-- Claim C7: the usage extractor returns the provider's usage-metadata
counts when a `usageMetadata` block is present (absent fields read as
0); when it is absent it reports a zero prompt count and attributes the
whole 1-token-per-4-characters estimate over the textual candidate parts
to the output side, with the total equal to that output estimate; and
extraction is a total function whose faulting inputs yield the all-zero
usage. -/
theorem C7_usage_extraction (um : UsageMetadata) (cands : Option (List Candidate))
    (cands2 : List Candidate) (texts : List String) :
    GeminiService.extractTokenUsage (.ok (some ⟨some um, cands⟩)) =
      ⟨um.promptTokenCount.getD 0, um.candidatesTokenCount.getD 0,
        um.totalTokenCount.getD 0⟩ ∧
    GeminiService.extractTokenUsage (.ok (some ⟨none, some cands2⟩)) =
      ⟨0, (cands2.map candidateTokens).sum, (cands2.map candidateTokens).sum⟩ ∧
    candidateTokens ⟨some ⟨some (texts.map (fun t => ⟨some t⟩))⟩⟩ =
      (texts.map (fun t => (t.length + 3) / 4)).sum ∧
    GeminiService.extractTokenUsage .malformed = ⟨0, 0, 0⟩ ∧
    GeminiService.extractTokenUsage (.ok none) = ⟨0, 0, 0⟩ := by
  refine ⟨rfl, rfl, ?_, rfl, rfl⟩
  have hfun : ((fun p => textTokens p.text) ∘ fun t : String => (⟨some t⟩ : RespPart)) =
      fun t : String => (t.length + 3) / 4 := by
    funext t
    simp [Function.comp, textTokens_some]
  simp [candidateTokens, List.map_map, hfun]

/-- Claim C1: for every authenticated request whose quota snapshot
violates at least one ceiling, the quota guard tests the hourly-request,
daily-token and daily-cost ceilings in that fixed order, the first
violated ceiling short-circuits and yields a 429 response carrying the
observed counter and a reset instant strictly in the future (now + 1
hour for the hourly ceiling, now + 24 hours for either daily ceiling),
and no upstream call or usage-record write occurs for that request. -/
theorem C1_quota_rejection (userId : String) (snap : QuotaSnapshot)
    (rest : List QuotaSnapshot) (now : ℕ) (body : ReqBody) (model : String)
    (upstream : AxiosOutcome) (storeWrite : Except String Unit)
    (hviol : snap.within_hourly_limit = false ∨ snap.within_daily_token_limit = false ∨
      snap.within_daily_cost_limit = false) :
    (generateContentRoute userId (.ok (snap :: rest)) now body model upstream
      storeWrite).response.status = 429 ∧
    (generateContentRoute userId (.ok (snap :: rest)) now body model upstream
      storeWrite).upstreamCalled = false ∧
    (generateContentRoute userId (.ok (snap :: rest)) now body model upstream
      storeWrite).usageWriteAttempts = 0 ∧
    (generateContentRoute userId (.ok (snap :: rest)) now body model upstream
      storeWrite).response.body =
      (if snap.within_hourly_limit = false then
        RespBody.limitError "Rate limit exceeded"
          "You have exceeded your hourly request limit"
          (snap.requests_last_hour : ℚ) (now + 60 * 60 * 1000)
       else if snap.within_daily_token_limit = false then
        RespBody.limitError "Token limit exceeded"
          "You have exceeded your daily token limit"
          (snap.tokens_today : ℚ) (now + 24 * 60 * 60 * 1000)
       else
        RespBody.limitError "Cost limit exceeded"
          "You have exceeded your daily cost limit"
          snap.cost_today (now + 24 * 60 * 60 * 1000)) ∧
    (∃ rt, ((generateContentRoute userId (.ok (snap :: rest)) now body model upstream
      storeWrite).response.body).resetTimeOf = some rt ∧ now < rt) := by
  cases h1 : snap.within_hourly_limit <;>
    cases h2 : snap.within_daily_token_limit <;>
      cases h3 : snap.within_daily_cost_limit <;>
        simp_all [generateContentRoute, SupabaseService.checkUserLimits, checkUserLimits,
          RespBody.resetTimeOf, config.rateLimitWindowMs]

/-- Witness for C1: a concrete snapshot violating the hourly ceiling is
answered 429 with no upstream call. -/
theorem C1_quota_rejection_witness :
    (generateContentRoute "u1" (.ok [⟨false, true, true, 7, 0, 0⟩]) 5 ⟨none, none⟩
      "gemini-pro" (.ok ⟨none, 200⟩) (.ok ())).response.status = 429 ∧
    (generateContentRoute "u1" (.ok [⟨false, true, true, 7, 0, 0⟩]) 5 ⟨none, none⟩
      "gemini-pro" (.ok ⟨none, 200⟩) (.ok ())).upstreamCalled = false :=
  ⟨(C1_quota_rejection "u1" ⟨false, true, true, 7, 0, 0⟩ [] 5 ⟨none, none⟩ "gemini-pro"
      (.ok ⟨none, 200⟩) (.ok ()) (Or.inl rfl)).1,
   (C1_quota_rejection "u1" ⟨false, true, true, 7, 0, 0⟩ [] 5 ⟨none, none⟩ "gemini-pro"
      (.ok ⟨none, 200⟩) (.ok ()) (Or.inl rfl)).2.1⟩

/-- Claim C2: when the quota-snapshot query itself fails (the limits
store call yields an error, which the service rethrows), the quota
middleware allows the request to proceed to the next pipeline stage
instead of rejecting it, so the upstream call still happens
(fail-open). -/
theorem C2_fail_open_on_store_error (userId msg : String) (now : ℕ) (body : ReqBody)
    (model : String) (upstream : AxiosOutcome) (storeWrite : Except String Unit) :
    checkUserLimits (some userId) (SupabaseService.checkUserLimits (.error msg)) now =
      .next none ∧
    (generateContentRoute userId (.error msg) now body model upstream
      storeWrite).upstreamCalled = true := by
  refine ⟨rfl, ?_⟩
  cases upstream <;> cases storeWrite <;> rfl

/-- Claim C10: a successful limits query returning an empty result set
is replaced by the default snapshot whose three within-limit flags are
all false, so the quota guard rejects the request with 429 and no
upstream call is made: the system fails closed on an empty (but
successful) snapshot query. -/
theorem C10_fail_closed_on_empty_snapshot (userId : String) (now : ℕ) (body : ReqBody)
    (model : String) (upstream : AxiosOutcome) (storeWrite : Except String Unit) :
    SupabaseService.checkUserLimits (.ok []) = .ok defaultDeniedLimits ∧
    defaultDeniedLimits.within_hourly_limit = false ∧
    defaultDeniedLimits.within_daily_token_limit = false ∧
    defaultDeniedLimits.within_daily_cost_limit = false ∧
    (generateContentRoute userId (.ok []) now body model upstream
      storeWrite).response.status = 429 ∧
    (generateContentRoute userId (.ok []) now body model upstream
      storeWrite).upstreamCalled = false := by
  refine ⟨rfl, rfl, rfl, rfl, rfl, rfl⟩

/-- Claim C8: for every request whose upstream call completed, the
client-visible response is the same whether the usage-store write
succeeds or fails (the failure is only logged), and at most one write
attempt is ever made — the write is never retried. -/
theorem C8_usage_write_isolated (userId : String)
    (rpc : Except String (List QuotaSnapshot)) (now : ℕ) (body : ReqBody)
    (model : String) (resp : UpstreamResp) (w1 w2 : Except String Unit) :
    (generateContentRoute userId rpc now body model (.ok resp) w1).response =
      (generateContentRoute userId rpc now body model (.ok resp) w2).response ∧
    (generateContentRoute userId rpc now body model (.ok resp) w1).usageWriteAttempts ≤ 1 := by
  cases h : checkUserLimits (some userId) (SupabaseService.checkUserLimits rpc) now with
  | respond r => simp [generateContentRoute, h]
  | next l =>
      cases w1 <;> cases w2 <;>
        simp [generateContentRoute, h, GeminiService.generateContent]

/-- Counterexample to claim C9 as stated: the auth gate does not make
exactly one token-verification attempt — when the primary client returns
an error it makes a second, admin-client fallback attempt (which can
even succeed) — and a transient identity-provider exception during
verification is answered 401, not with a 5xx authentication-service
error. -/
theorem C9_counterexample :
    (authenticateUser (some "Bearer tok") (.err "invalid signature")
        (.ok (some ⟨"u1", "a@b.c"⟩)) (.ok ⟨"free", true⟩)).2 = 2 ∧
    (authenticateUser (some "Bearer tok") (.err "invalid signature")
        (.ok (some ⟨"u1", "a@b.c"⟩)) (.ok ⟨"free", true⟩)).1 =
      .proceed ⟨"u1", "a@b.c"⟩ ⟨"free", true⟩ ∧
    (authenticateUser (some "Bearer tok") (.exn "connect ECONNREFUSED")
        (.ok none) (.ok ⟨"free", true⟩)).1 =
      .respond 401 "Invalid or expired token" "Please authenticate again" := by
  refine ⟨?_, ?_, ?_⟩ <;> decide

/-- Claim C9, amended: the auth gate makes at most two
token-verification attempts — one primary attempt, plus exactly one
admin-client fallback attempt when and only when the primary returns an
API error — and a transient identity-provider exception during
verification is caught and surfaces to the client as a 401
invalid-credential response; the 500 authentication-service error
arises only from failures outside token verification (the profile
fetch throwing). -/
theorem C9_auth_attempts_amended (h : String) (primary admin : VerifyCallResult)
    (profile : Except String Profile) :
    (authenticateUser (some h) primary admin profile).2 ≤ 2 ∧
    ((authenticateUser (some h) primary admin profile).2 = 2 →
      ∃ m, primary = .err m) ∧
    (∀ m, primary = .exn m → startsWithBearer h = true →
      (authenticateUser (some h) primary admin profile).1 =
        .respond 401 "Invalid or expired token" "Please authenticate again") ∧
    (∀ m e, primary = .exn m → profile = .error e →
      (authenticateUser (some h) primary admin profile).1 ≠
        .respond 500 "Authentication service error" "Please try again later") := by
  cases hb : startsWithBearer h <;>
    cases primary <;>
      simp_all [authenticateUser, SupabaseService.verifyToken]
  case true.ok u =>
    cases u with
    | none => simp [authenticateUser, SupabaseService.verifyToken, hb]
    | some v =>
        cases profile with
        | error e => simp [authenticateUser, SupabaseService.verifyToken, hb]
        | ok p =>
            cases hp : p.is_active <;>
              simp [authenticateUser, SupabaseService.verifyToken, hb, hp]
  case true.err =>
    cases admin with
    | ok u2 =>
        cases u2 with
        | none => simp_all [authenticateUser, SupabaseService.verifyToken]
        | some v =>
            cases profile with
            | error e => simp_all [authenticateUser, SupabaseService.verifyToken]
            | ok p =>
                cases hp : p.is_active <;>
                  simp_all [authenticateUser, SupabaseService.verifyToken]
    | err ae => simp_all [authenticateUser, SupabaseService.verifyToken]
    | exn ae => simp_all [authenticateUser, SupabaseService.verifyToken]

/-- Witness for the amended C9: a concrete transient verification
exception is answered 401. -/
theorem C9_auth_attempts_amended_witness :
    (authenticateUser (some "Bearer t") (.exn "boom") (.ok none) (.ok ⟨"free", true⟩)).1 =
      .respond 401 "Invalid or expired token" "Please authenticate again" :=
  (C9_auth_attempts_amended "Bearer t" (.exn "boom") (.ok none)
    (.ok ⟨"free", true⟩)).2.2.1 "boom" rfl (by decide)

/-- Claim C4, evaluated at the failing input: for the listed model
`gemini-embedding-001`, whose `outputTokensPerDollar` is 0, the code
computes `0 / 0 = NaN` on the output side, so `cost(0,0,m)` is NaN
rather than the 0 the specification's linearity property requires — and
indeed every cost for this model with zero output tokens is NaN. -/
theorem C4_linearity_fails_on_embedding_model :
    GeminiService.calculateCost 0 0 "gemini-embedding-001" = JsNum.nan ∧
    GeminiService.calculateCost 0 0 "gemini-embedding-001" ≠ JsNum.num 0 ∧
    GeminiService.calculateCost 8 0 "gemini-embedding-001" = JsNum.nan ∧
    GeminiService.calculateCost 4 0 "gemini-embedding-001" = JsNum.nan := by
  refine ⟨?_, ?_, ?_, ?_⟩ <;>
    norm_num [GeminiService.calculateCost, config.pricing, jsDiv, jsAdd]
  decide

/-- Claim C5, evaluated at the failing input: for the listed model
`gemini-embedding-001` the computed cost is not finite and not
non-negative — a positive output-token count divides by the zero output
rate and yields Infinity, and a zero output-token count yields NaN — so
the safety property fails on this listed model (the unlisted-model
fallback itself behaves as claimed; see the C3 theorem). -/
theorem C5_cost_not_finite_on_embedding_model :
    GeminiService.calculateCost 4 4 "gemini-embedding-001" = JsNum.posInf ∧
    (GeminiService.calculateCost 4 4 "gemini-embedding-001").isFinite = false ∧
    GeminiService.calculateCost 3 0 "gemini-embedding-001" = JsNum.nan ∧
    (GeminiService.calculateCost 3 0 "gemini-embedding-001").isNonneg = false := by
  refine ⟨?_, ?_, ?_, ?_⟩ <;>
    norm_num [GeminiService.calculateCost, config.pricing, jsDiv, jsAdd, JsNum.isFinite,
      JsNum.isNonneg]
